import Mathlib

/-!
Verification development for the `a2` push-notification payload builder
(files `src/request/notification.rs` and `src/request/notification/web.rs`).

The `Payload` / `APS` data model, the `NotificationOptions` delivery
metadata, the default builder and the JSON serialization live in files of
the repository that are not part of the provided sources; they are modelled
from the specification and marked as such in their doc comments.  The
`WebNotificationBuilder` (its constructor `new`, the mutator `set_sound`
and the trait method `build`) is embedded directly from the Rust source.
-/

namespace A2

/-- Modelled from the spec: the JSON value shape produced by the external
serialization collaborator.  An object is an ordered list of key/value
pairs, because the wire format mandates a serialization order for the
`aps` keys. -/
inductive Json where
  | str : String → Json
  | num : Nat → Json
  | float : Float → Json
  | bool : Bool → Json
  | arr : List Json → Json
  | obj : List (String × Json) → Json

/-- The keys of a JSON object, in serialization order (empty for
non-objects). -/
def Json.objKeys : Json → List String
  | Json.obj kvs => kvs.map Prod.fst
  | _ => []

/-- Modelled from the spec: `apns-priority` — `Normal` = 5, `High` = 10,
or unset (meaning protocol default) via `Option Priority`. -/
inductive Priority where
  | Normal : Priority
  | High : Priority
deriving DecidableEq, Repr

/-- Modelled from the spec: the `apns-push-type` enumeration. -/
inductive PushType where
  | alert : PushType
  | background : PushType
  | voip : PushType
  | complication : PushType
  | fileprovider : PushType
  | mdm : PushType
deriving DecidableEq, Repr

/-- Modelled from the spec: `NotificationOptions`, the delivery metadata
(apns-id, apns-expiration, apns-priority, apns-topic, apns-collapse-id,
apns-push-type), all optional, immutable once constructed.  The
collapse id is a bounded-length identifier; the length bound is enforced
by its own constructor elsewhere and is irrelevant to the claims, so the
value is carried as a plain string here. -/
structure NotificationOptions where
  apns_id : Option String
  apns_expiration : Option Nat
  apns_priority : Option Priority
  apns_topic : Option String
  apns_collapse_id : Option String
  apns_push_type : Option PushType
deriving DecidableEq, Repr

/-- Modelled from the spec: `Default::default()` for the options — every
delivery-metadata field unset. -/
def NotificationOptions.default : NotificationOptions :=
  { apns_id := none
    apns_expiration := none
    apns_priority := none
    apns_topic := none
    apns_collapse_id := none
    apns_push_type := none }

/-- From `web.rs`: the web-push alert with its three required fields
(`title`, `body`, `action`), serialized with kebab-case naming. -/
structure WebPushAlert where
  title : String
  body : String
  action : String
deriving DecidableEq, Repr

/-- Modelled from the spec: the structured alert dictionary variant, all
fields optional, serialized with kebab-case keys and omitted when
absent. -/
structure StructuredAlert where
  title : Option String
  subtitle : Option String
  body : Option String
  title_loc_key : Option String
  title_loc_args : Option (List String)
  action_loc_key : Option String
  loc_key : Option String
  loc_args : Option (List String)
  launch_image : Option String
deriving DecidableEq, Repr

/-- Modelled from the spec: the `APSAlert` sum type — a plain string, a
structured dictionary, or the web-push shape (the variant used by
`WebNotificationBuilder::build`). -/
inductive APSAlert where
  | Plain : String → APSAlert
  | Structured : StructuredAlert → APSAlert
  | WebPush : WebPushAlert → APSAlert
deriving DecidableEq, Repr

/-- Modelled from the spec: the critical-alert sound dictionary
(`critical: bool`, `name: string`, `volume: f32`). -/
structure CriticalSound where
  critical : Bool
  name : String
  volume : Float

/-- Modelled from the spec: the `APSSound` sum type — a simple file name
(the `APSSound::Sound` constructor used by the web builder) or a
critical-alert dictionary. -/
inductive APSSound where
  | Sound : String → APSSound
  | Critical : CriticalSound → APSSound

/-- Modelled from the spec: the reserved `aps` namespace.  Every field is
optional; `content_available` and `mutable_content` are presence-as-flag
fields that serialize as the number 1 when present.  Every `None` field
is omitted entirely from serialized output. -/
structure APS where
  alert : Option APSAlert
  badge : Option Nat
  sound : Option APSSound
  content_available : Option Unit
  category : Option String
  mutable_content : Option Unit
  url_args : Option (List String)

/-- Modelled from the spec: the payload envelope — the reserved `aps`
object, the opaque device token, the delivery options (transmitted
out-of-band, never part of the JSON body) and the ordered mapping of
caller-supplied custom top-level data, flattened alongside `aps` on
serialization. -/
structure Payload where
  aps : APS
  device_token : String
  options : NotificationOptions
  data : List (String × Json)

/-- Modelled from the spec: serialization of the web-push alert shape —
an object with the three required keys in declaration order. -/
def WebPushAlert.toJson (a : WebPushAlert) : Json :=
  Json.obj [("title", Json.str a.title), ("body", Json.str a.body), ("action", Json.str a.action)]

/-- A present optional field contributes one key/value pair to the
serialized object; an absent one contributes nothing (never `null`). -/
def optField (key : String) : Option Json → List (String × Json)
  | none => []
  | some j => [(key, j)]

/-- Modelled from the spec: serialization of the structured alert
dictionary, kebab-case keys, absent fields omitted. -/
def StructuredAlert.toJson (a : StructuredAlert) : Json :=
  Json.obj
    (optField "title" (a.title.map Json.str) ++
      optField "subtitle" (a.subtitle.map Json.str) ++
      optField "body" (a.body.map Json.str) ++
      optField "title-loc-key" (a.title_loc_key.map Json.str) ++
      optField "title-loc-args" (a.title_loc_args.map (fun l => Json.arr (l.map Json.str))) ++
      optField "action-loc-key" (a.action_loc_key.map Json.str) ++
      optField "loc-key" (a.loc_key.map Json.str) ++
      optField "loc-args" (a.loc_args.map (fun l => Json.arr (l.map Json.str))) ++
      optField "launch-image" (a.launch_image.map Json.str))

/-- Modelled from the spec: the serialized shape of an alert depends
entirely on the active variant — string, structured dictionary, or
web-push dictionary. -/
def APSAlert.toJson : APSAlert → Json
  | APSAlert.Plain s => Json.str s
  | APSAlert.Structured a => a.toJson
  | APSAlert.WebPush a => a.toJson

/-- Modelled from the spec: a simple sound serializes as its file-name
string, a critical sound as a dictionary. -/
def APSSound.toJson : APSSound → Json
  | APSSound.Sound s => Json.str s
  | APSSound.Critical c =>
      Json.obj [("critical", Json.bool c.critical), ("name", Json.str c.name), ("volume", Json.float c.volume)]

/-- Modelled from the spec: serialization of the `aps` object — kebab-case
key names in the protocol-mandated order, every `None` field omitted,
presence-as-flag fields emitted as the number 1. -/
def APS.toJson (aps : APS) : Json :=
  Json.obj
    (optField "alert" (aps.alert.map APSAlert.toJson) ++
      optField "badge" (aps.badge.map Json.num) ++
      optField "sound" (aps.sound.map APSSound.toJson) ++
      optField "content-available" (aps.content_available.map (fun _ => Json.num 1)) ++
      optField "category" (aps.category.map Json.str) ++
      optField "mutable-content" (aps.mutable_content.map (fun _ => Json.num 1)) ++
      optField "url-args" (aps.url_args.map (fun l => Json.arr (l.map Json.str))))

/-- Modelled from the spec: serialization of the full payload — the `aps`
object first, then the custom `data` entries flattened alongside it; the
device token and the delivery options are transmitted out-of-band and
never appear in the JSON body. -/
def Payload.toJson (p : Payload) : Json :=
  Json.obj (("aps", p.aps.toJson) :: p.data)

/-- From `notification.rs`: the `NotificationBuilder` trait, the
polymorphic contract every concrete builder implements —
`build(self, device_token, options) -> Payload`. -/
class NotificationBuilder (β : Type) where
  build : β → String → NotificationOptions → Payload

/-- From `web.rs`: the web-push builder state — the required alert, the
optional sound, and the required list of url arguments. -/
structure WebNotificationBuilder where
  alert : WebPushAlert
  sound : Option String
  url_args : List String
deriving DecidableEq, Repr

/-- From `web.rs`: `WebNotificationBuilder::new` — stores the alert,
initializes `sound` to `None`, and collects the element-wise conversion
of the url-argument sequence (`url_args.as_ref().into_iter().cloned()
.map(|arg| arg.into()).collect()`).  The Rust generic `E: Into<Cow<str>>`
is embedded as an arbitrary element type together with its conversion
function. -/
def WebNotificationBuilder.new {E : Type} (conv : E → String)
    (alert : WebPushAlert) (url_args : List E) : WebNotificationBuilder :=
  { alert := alert
    sound := none
    url_args := url_args.map (fun arg => conv arg) }

/-- From `web.rs`: `set_sound` — overwrites the sound field with
`Some(sound)` and returns the builder for chaining. -/
def WebNotificationBuilder.set_sound (self : WebNotificationBuilder) (sound : String) :
    WebNotificationBuilder :=
  { self with sound := some sound }

/-- From `web.rs`: `WebNotificationBuilder::build` — produces the payload
with `alert = Some(WebPush(self.alert))`, `sound = self.sound.map(Sound)`,
`url_args = Some(self.url_args)`, the four unused `aps` fields `None`,
the converted device token, the options passed through, and an empty
custom-data map. -/
def WebNotificationBuilder.build (self : WebNotificationBuilder)
    (device_token : String) (options : NotificationOptions) : Payload :=
  { aps :=
      { alert := some (APSAlert.WebPush self.alert)
        badge := none
        sound := self.sound.map APSSound.Sound
        content_available := none
        category := none
        mutable_content := none
        url_args := some self.url_args }
    device_token := device_token
    options := options
    data := [] }

instance : NotificationBuilder WebNotificationBuilder :=
  ⟨WebNotificationBuilder.build⟩

/-- Modelled from the spec: the default/generic builder — constructed with
an `Alert` up front, with independent last-write-wins setters for badge,
sound, category, content-available and mutable-content. -/
structure DefaultNotificationBuilder where
  alert : APSAlert
  badge : Option Nat
  sound : Option APSSound
  category : Option String
  content_available : Option Unit
  mutable_content : Option Unit

/-- Modelled from the spec: construction of the default builder from its
required alert, every optional field unset. -/
def DefaultNotificationBuilder.new (alert : APSAlert) : DefaultNotificationBuilder :=
  { alert := alert
    badge := none
    sound := none
    category := none
    content_available := none
    mutable_content := none }

/-- Modelled from the spec: the default builder's `build` — copies the
accumulated fields into an `APS` with `alert` fixed to the constructed
variant, `url_args` always `None`, and `data` starting empty. -/
def DefaultNotificationBuilder.build (self : DefaultNotificationBuilder)
    (device_token : String) (options : NotificationOptions) : Payload :=
  { aps :=
      { alert := some self.alert
        badge := self.badge
        sound := self.sound
        content_available := self.content_available
        category := self.category
        mutable_content := self.mutable_content
        url_args := none }
    device_token := device_token
    options := options
    data := [] }

instance : NotificationBuilder DefaultNotificationBuilder :=
  ⟨DefaultNotificationBuilder.build⟩

end A2

namespace A2

/-- C1: for every `WebNotificationBuilder` — any alert, any url-args list
including the empty list, with or without a sound set — the payload
returned by `build` has `aps.url_args = some (builder url args)`, and the
`url-args` key is present in the serialized `aps` object. -/
theorem C1_url_args_always_present (b : WebNotificationBuilder)
    (t : String) (o : NotificationOptions) :
    (b.build t o).aps.url_args = some b.url_args ∧
      "url-args" ∈ ((b.build t o).aps.toJson).objKeys := by
  refine ⟨rfl, ?_⟩
  rcases b with ⟨a, s, u⟩
  cases s <;>
    simp [WebNotificationBuilder.build, APS.toJson, optField, Json.objKeys]

/-- C2: for every `WebNotificationBuilder`, the built payload has
`aps.badge`, `aps.content_available`, `aps.category` and
`aps.mutable_content` all `none`, and none of the four corresponding keys
appears in the serialized `aps` object. -/
theorem C2_unused_fields_never_present (b : WebNotificationBuilder)
    (t : String) (o : NotificationOptions) :
    (b.build t o).aps.badge = none ∧
      (b.build t o).aps.content_available = none ∧
      (b.build t o).aps.category = none ∧
      (b.build t o).aps.mutable_content = none ∧
      "badge" ∉ ((b.build t o).aps.toJson).objKeys ∧
      "content-available" ∉ ((b.build t o).aps.toJson).objKeys ∧
      "category" ∉ ((b.build t o).aps.toJson).objKeys ∧
      "mutable-content" ∉ ((b.build t o).aps.toJson).objKeys := by
  refine ⟨rfl, rfl, rfl, rfl, ?_, ?_, ?_, ?_⟩ <;>
    · rcases b with ⟨a, s, u⟩
      cases s <;>
        simp [WebNotificationBuilder.build, APS.toJson, optField, Json.objKeys]

/-- C3: the scenario builder (`new` with alert Hello/world/View and
url-args `["arg1"]`, built with device token `"device-token"` and default
options) serializes to exactly
`{"aps":{"alert":{"title":"Hello","body":"world","action":"View"},"url-args":["arg1"]}}`,
with no other keys present. -/
theorem C3_scenario_serialization :
    Payload.toJson
      ((WebNotificationBuilder.new (fun s => s)
          { title := "Hello", body := "world", action := "View" } ["arg1"]).build
        "device-token" NotificationOptions.default) =
      Json.obj
        [("aps", Json.obj
          [("alert", Json.obj
            [("title", Json.str "Hello"), ("body", Json.str "world"),
              ("action", Json.str "View")]),
            ("url-args", Json.arr [Json.str "arg1"])])] := rfl

/-- C4: `build` is total for both builder variants — for every builder
state, device token and options it returns a `Payload`, with no error
path. -/
theorem C4_build_is_total :
    (∀ (b : WebNotificationBuilder) (t : String) (o : NotificationOptions),
        ∃ p : Payload, NotificationBuilder.build b t o = p) ∧
      (∀ (b : DefaultNotificationBuilder) (t : String) (o : NotificationOptions),
        ∃ p : Payload, NotificationBuilder.build b t o = p) :=
  ⟨fun b t o => ⟨b.build t o, rfl⟩, fun b t o => ⟨b.build t o, rfl⟩⟩

/-- C5: `set_sound` is last-write-wins — calling it with `a` then with `c`
yields a builder equal to one where only `set_sound c` was called, and the
built payload carries only the last sound value. -/
theorem C5_set_sound_overwrites (b : WebNotificationBuilder) (a c : String)
    (t : String) (o : NotificationOptions) :
    (b.set_sound a).set_sound c = b.set_sound c ∧
      (((b.set_sound a).set_sound c).build t o).aps.sound =
        some (APSSound.Sound c) :=
  ⟨rfl, rfl⟩

/-- C6: the scenario builder with `set_sound "meow"` serializes its `aps`
object to exactly the keys `alert`, `sound`, `url-args` in that order,
with `"sound":"meow"` between `alert` and `url-args` and no other keys
added. -/
theorem C6_scenario_with_sound :
    APS.toJson
      (((WebNotificationBuilder.new (fun s => s)
            { title := "Hello", body := "world", action := "View" }
            ["arg1"]).set_sound "meow").build
          "device-token" NotificationOptions.default).aps =
      Json.obj
        [("alert", Json.obj
          [("title", Json.str "Hello"), ("body", Json.str "world"),
            ("action", Json.str "View")]),
          ("sound", Json.str "meow"),
          ("url-args", Json.arr [Json.str "arg1"])] := rfl

/-- C7: every payload built by the web builder has an empty custom-data
map, and its serialized top level carries only the `aps` key. -/
theorem C7_data_always_empty (b : WebNotificationBuilder)
    (t : String) (o : NotificationOptions) :
    (b.build t o).data = [] ∧
      (Payload.toJson (b.build t o)).objKeys = ["aps"] :=
  ⟨rfl, rfl⟩

/-- C9: `build` passes its arguments through unchanged — the returned
payload's `options` is exactly the options argument, its `device_token`
is exactly the device-token argument, and the alert stored at
construction appears in `aps.alert` unmodified as the `WebPush`
variant. -/
theorem C9_build_passthrough (b : WebNotificationBuilder)
    (t : String) (o : NotificationOptions) :
    (b.build t o).options = o ∧ (b.build t o).device_token = t ∧
      (b.build t o).aps.alert = some (APSAlert.WebPush b.alert) :=
  ⟨rfl, rfl, rfl⟩

/-- C10: `new` preserves the url-args input exactly — the builder stores
the element-wise conversion of the input sequence, with the same length
and order (duplicates kept), initializes `sound` to `none`, and the
built payload exposes that same list in `aps.url_args`. -/
theorem C10_new_preserves_url_args {E : Type} (conv : E → String)
    (alert : WebPushAlert) (args : List E) :
    (WebNotificationBuilder.new conv alert args).url_args = args.map conv ∧
      (WebNotificationBuilder.new conv alert args).url_args.length = args.length ∧
      (WebNotificationBuilder.new conv alert args).sound = none ∧
      ∀ (t : String) (o : NotificationOptions),
        ((WebNotificationBuilder.new conv alert args).build t o).aps.url_args =
          some (args.map conv) :=
  ⟨rfl, by simp [WebNotificationBuilder.new], rfl, fun t o => rfl⟩

end A2
